import Mathlib

/-!
Verification of the WebSocket-to-SSH stream adapter repository.

The repository bridges a message-oriented WebSocket transport to the byte-stream
abstraction expected by the dev-tunnels SSH session library.  Two adapters exist:
`WebSocketServerStream` (src/server/src/websocket-stream.ts, over the `websocket`
package's `connection`) and `connectionClientStream` (src/repro-client-ws.ts, over
the `ws` package's `WebSocket`).  We embed both as pure state transformers on an
explicit observable state: the sink notifications fired so far, the outbound
messages sent on the transport, the transport close/drop invocations, and the
`disposed` flag inherited from the library base class `BaseStream`.

The base class is external to the repository; its contract is modelled from the
spec: `disposed` is a monotonic boolean and `BaseStream.dispose` marks the stream
disposed (idempotently) and never throws.
-/

namespace WsSSH

/-- Byte strings carried by transport messages, modelled as lists of bytes. -/
abbrev Bytes := List Nat

/-- Stream-level error value: an optional numeric code plus a message.  This
mirrors the JavaScript pattern `new Error(reason)` optionally extended with a
numeric `code` property, as both adapters build in their close handlers. -/
structure StreamError where
  code : Option Nat
  message : String
deriving DecidableEq, Repr

/-- Generic error used by `close()` when no error argument is given:
`new Error("Stream closed.")`. -/
def streamClosedError : StreamError := { code := none, message := "Stream closed." }

/-- Errors thrown synchronously by `write` and `close`:
`ObjectDisposedError` from the session library, and `TypeError` for a missing
argument (the spec's `InvalidArgument`). -/
inductive CallError where
  | objectDisposed
  | invalidArgument (msg : String)
deriving DecidableEq, Repr

/-- Incoming event observed on the transport connection. -/
inductive TransportEvent where
  | message (isBinary : Bool) (payload : Bytes)
  | closeEvt (code : Option Nat) (reason : String)
  | errorEvt (err : StreamError)
deriving DecidableEq, Repr

/-- Notification fired by the adapter to its sinks: `onData`, `onEnd`,
`onError`, and the `closedEmitter`. -/
inductive SinkEvent where
  | data (bytes : Bytes)
  | endOfStream
  | error (e : StreamError)
  | closed (err : Option StreamError)
deriving DecidableEq, Repr

/-- Invocation of the transport connection's own close or drop operation,
with the optional numeric code and reason passed to it. -/
inductive TransportClose where
  | close (code : Option Nat) (reason : Option String)
  | drop (code : Option Nat) (reason : Option String)
deriving DecidableEq, Repr

/-- Observable state of one stream adapter: the `disposed` flag (from the
library base class `BaseStream`), the sink notifications fired so far in
order, the payloads sent on the transport in order, and the transport
close/drop invocations made so far in order. -/
structure AdapterState where
  disposed : Bool
  events : List SinkEvent
  sent : List Bytes
  transportCloses : List TransportClose
deriving DecidableEq, Repr

/-- State of a freshly constructed adapter. -/
def initState : AdapterState :=
  { disposed := false, events := [], sent := [], transportCloses := [] }

/-- Payloads delivered to the data sink, in order. -/
def dataEvents (evts : List SinkEvent) : List Bytes :=
  evts.filterMap fun e =>
    match e with
    | SinkEvent.data b => some b
    | _ => none

/-- Errors delivered to the error sink, in order. -/
def errorEvents (evts : List SinkEvent) : List StreamError :=
  evts.filterMap fun e =>
    match e with
    | SinkEvent.error er => some er
    | _ => none

/-- Payloads of the binary messages in a transport event sequence, in order. -/
def binaryPayloads (evts : List TransportEvent) : List Bytes :=
  evts.filterMap fun e =>
    match e with
    | TransportEvent.message true p => some p
    | _ => none

namespace WebSocketServerStream

/-- Message handler registered by the constructor of `WebSocketServerStream`:
`if (data.type === "binary") this.onData(Buffer.from(data.binaryData))`.
Non-binary messages are ignored; binary payloads are delivered intact. -/
def onMessage (s : AdapterState) (isBinary : Bool) (payload : Bytes) : AdapterState :=
  if isBinary then { s with events := s.events ++ [SinkEvent.data payload] } else s

/-- Close handler registered by the constructor:
`if (typeof code === "undefined" || !code) this.onEnd(); else { const error = new Error(reason); error.code = code; this.onError(error); }`. -/
def onClose (s : AdapterState) (code : Option Nat) (reason : String) : AdapterState :=
  match code with
  | none => { s with events := s.events ++ [SinkEvent.endOfStream] }
  | some c =>
    if c = 0 then { s with events := s.events ++ [SinkEvent.endOfStream] }
    else
      { s with events := s.events ++ [SinkEvent.error { code := some c, message := reason }] }

/-- Error handler registered by the constructor:
`websocket.on("error", (error) => { ...; this.onError(error); })` — the very
same error value is passed on. -/
def onErrorEvt (s : AdapterState) (err : StreamError) : AdapterState :=
  { s with events := s.events ++ [SinkEvent.error err] }

/-- Dispatch of one incoming transport event to the handlers the constructor
registered (`message`, `close`, `error`). -/
def handleEvent (s : AdapterState) (e : TransportEvent) : AdapterState :=
  match e with
  | TransportEvent.message b p => onMessage s b p
  | TransportEvent.closeEvt c r => onClose s c r
  | TransportEvent.errorEvt err => onErrorEvt s err

/-- Processing of a whole sequence of incoming transport events. -/
def run (s : AdapterState) (evts : List TransportEvent) : AdapterState :=
  evts.foldl handleEvent s

/-- Method `write(data)`: `if (!data) throw TypeError("Data is required.");
if (this.disposed) throw ObjectDisposedError; this.websocket.send(data);`.
Note the argument check precedes the disposed check, and that in JavaScript
`!data` is false for an empty (but present) buffer. -/
def write (s : AdapterState) (data : Option Bytes) : Except CallError AdapterState :=
  match data with
  | none => Except.error (CallError.invalidArgument "Data is required.")
  | some d =>
    if s.disposed then Except.error CallError.objectDisposed
    else Except.ok { s with sent := s.sent ++ [d] }

/-- Method `close(error?)`: throws `ObjectDisposedError` if disposed; otherwise
closes the websocket normally (no error) or drops it with the error's numeric
code (if it has one) and message; then sets `disposed = true`, fires the
`closed` notification with the optional error, and fires `onError` with the
given error or `new Error("Stream closed.")`. -/
def close (s : AdapterState) (error : Option StreamError) : Except CallError AdapterState :=
  if s.disposed then Except.error CallError.objectDisposed
  else
    let s1 :=
      match error with
      | none => { s with transportCloses := s.transportCloses ++ [TransportClose.close none none] }
      | some e =>
        { s with transportCloses := s.transportCloses ++ [TransportClose.drop e.code (some e.message)] }
    Except.ok
      { s1 with
        disposed := true,
        events := s1.events ++ [SinkEvent.closed error, SinkEvent.error (error.getD streamClosedError)] }

/-- Method `dispose()`: `if (!this.disposed) this.websocket.close(); super.dispose();`.
The call `super.dispose()` is modelled from the spec contract of the external
base class: it marks the stream disposed and never throws. -/
def dispose (s : AdapterState) : AdapterState :=
  let s1 :=
    if s.disposed then s
    else { s with transportCloses := s.transportCloses ++ [TransportClose.close none none] }
  { s1 with disposed := true }

end WebSocketServerStream

namespace ConnectionClientStream

/-- Message handler registered by the constructor of `connectionClientStream`:
`if (isBinary) { const buffer = Buffer.isBuffer(data) ? data : Buffer.from(data); this.onData(buffer); }`.
Only binary messages are delivered, with identical byte content. -/
def onMessage (s : AdapterState) (isBinary : Bool) (payload : Bytes) : AdapterState :=
  if isBinary then { s with events := s.events ++ [SinkEvent.data payload] } else s

/-- Close handler registered by the constructor:
`if (!code) this.onEnd(); else { const error = new Error(reason); error.code = code ?? 1011; this.onError(error); }`.
In the else branch `code` is a truthy number, so `code ?? 1011` is `code`. -/
def onClose (s : AdapterState) (code : Option Nat) (reason : String) : AdapterState :=
  match code with
  | none => { s with events := s.events ++ [SinkEvent.endOfStream] }
  | some c =>
    if c = 0 then { s with events := s.events ++ [SinkEvent.endOfStream] }
    else
      { s with
        events := s.events ++
          [SinkEvent.error { code := some (Option.getD (some c) 1011), message := reason }] }

/-- Dispatch of one incoming transport event.  The constructor registers only
`message` and `close` handlers; transport `error` events have no handler on
this adapter and leave it untouched. -/
def handleEvent (s : AdapterState) (e : TransportEvent) : AdapterState :=
  match e with
  | TransportEvent.message b p => onMessage s b p
  | TransportEvent.closeEvt c r => onClose s c r
  | TransportEvent.errorEvt _ => s

/-- Processing of a whole sequence of incoming transport events. -/
def run (s : AdapterState) (evts : List TransportEvent) : AdapterState :=
  evts.foldl handleEvent s

/-- Method `write(data)`: `if (this.disposed) throw ObjectDisposedError;
if (!data) throw TypeError("Data is required."); this.connection.send(data);`.
Here the disposed check precedes the argument check (the opposite order from
the server adapter), and `!data` is false for an empty present buffer. -/
def write (s : AdapterState) (data : Option Bytes) : Except CallError AdapterState :=
  if s.disposed then Except.error CallError.objectDisposed
  else
    match data with
    | none => Except.error (CallError.invalidArgument "Data is required.")
    | some d => Except.ok { s with sent := s.sent ++ [d] }

/-- Method `close(error?)`: throws `ObjectDisposedError` if disposed; otherwise
`connection.close(1000)` (no error) or `connection.close(error.code ?? 1011, error.message)`;
then sets `disposed = true`, fires `closed` with the optional error, and fires
`onError` with the given error or `new Error("Stream closed.")`. -/
def close (s : AdapterState) (error : Option StreamError) : Except CallError AdapterState :=
  if s.disposed then Except.error CallError.objectDisposed
  else
    let s1 :=
      match error with
      | none =>
        { s with transportCloses := s.transportCloses ++ [TransportClose.close (some 1000) none] }
      | some e =>
        { s with
          transportCloses := s.transportCloses ++
            [TransportClose.close (some (e.code.getD 1011)) (some e.message)] }
    Except.ok
      { s1 with
        disposed := true,
        events := s1.events ++ [SinkEvent.closed error, SinkEvent.error (error.getD streamClosedError)] }

/-- Method `dispose()`: `if (!this.disposed) this.connection.close(); super.dispose();`.
As on the server side, `super.dispose()` is modelled from the spec contract of
the external base class: it marks the stream disposed and never throws. -/
def dispose (s : AdapterState) : AdapterState :=
  let s1 :=
    if s.disposed then s
    else { s with transportCloses := s.transportCloses ++ [TransportClose.close none none] }
  { s1 with disposed := true }

end ConnectionClientStream

/-- Lifecycle operation invoked by the session layer on an adapter. -/
inductive LifecycleOp where
  | closeOp (err : Option StreamError)
  | disposeOp
deriving DecidableEq, Repr

namespace WebSocketServerStream

/-- One lifecycle step on the server adapter: a `close` that throws leaves the
state unchanged (the method throws before any mutation); `dispose` never
throws. -/
def step (s : AdapterState) (op : LifecycleOp) : AdapterState :=
  match op with
  | LifecycleOp.closeOp e =>
    match close s e with
    | Except.ok s2 => s2
    | Except.error _ => s
  | LifecycleOp.disposeOp => dispose s

end WebSocketServerStream

namespace ConnectionClientStream

/-- One lifecycle step on the client adapter, as for the server adapter. -/
def step (s : AdapterState) (op : LifecycleOp) : AdapterState :=
  match op with
  | LifecycleOp.closeOp e =>
    match close s e with
    | Except.ok s2 => s2
    | Except.error _ => s
  | LifecycleOp.disposeOp => dispose s

end ConnectionClientStream

/-- Process-wide session registry: a map from connection identifier to a
session (identified by a number), modelled as an association list in which a
key occurs at most once and `set` overwrites in place, like `Map`. -/
abbrev Registry := List (String × Nat)

/-- Lookup in the registry, like `Map.get`. -/
def regGet (r : Registry) (k : String) : Option Nat :=
  match r with
  | [] => none
  | (k2, v) :: t => if k = k2 then some v else regGet t k

/-- Installation into the registry, like `Map.set`: overwrite the existing
entry for the key, or append a new one. -/
def regSet (r : Registry) (k : String) (v : Nat) : Registry :=
  match r with
  | [] => [(k, v)]
  | (k2, v2) :: t => if k = k2 then (k, v) :: t else (k2, v2) :: regSet t k v

/-- Removal from the registry, like `Map.delete`. -/
def regDelete (r : Registry) (k : String) : Registry :=
  match r with
  | [] => []
  | (k2, v2) :: t => if k = k2 then t else (k2, v2) :: regDelete t k

/-- Function `closeSessions(sessions?)` of src/repro-client-ws.ts: iterate the
module-level sessionMap; skip entries whose key is not in the filter list (when
one is given); close every other entry's session (fire-and-forget) and delete
it from the map.  Returns the remaining registry and the ids of the sessions
closed, in iteration order. -/
def closeSessions (only : Option (List String)) (r : Registry) : Registry × List Nat :=
  match r with
  | [] => ([], [])
  | (k, v) :: t =>
    let rest := closeSessions only t
    match only with
    | some keys => if k ∈ keys then (rest.1, v :: rest.2) else ((k, v) :: rest.1, rest.2)
    | none => (rest.1, v :: rest.2)

/-- The connection identifier used by testSSH. -/
def serverURI : String := "ws://localhost:8080"

/-- Outcome of the session-registration flow of one `testSSH` run. -/
structure TestSSHTrace where
  closedByPreamble : List Nat
  localMap : Registry
  globalMap : Registry
deriving DecidableEq, Repr

/-- Session-registration flow of `testSSH` (src/repro-client-ws.ts), faithful
to the source: the function opens with `const sessionMap = new Map()`, a fresh
local map that shadows the module-level `sessionMap`; the preamble commented
"close the opened session if exists" looks the key up in that fresh local map
and closes the session only if found there; the later
`sessionMap.set(serverURI, session)` installs the new session into the same
local map.  The module-level map (`globalMap` here) is never consulted or
modified by this flow. -/
def testSSHRegister (globalMap : Registry) (newSession : Nat) : TestSSHTrace :=
  let localMap : Registry := []
  let prior := regGet localMap serverURI
  let closedByPreamble :=
    match prior with
    | some sid => [sid]
    | none => []
  let localMap2 := regSet localMap serverURI newSession
  { closedByPreamble := closedByPreamble, localMap := localMap2, globalMap := globalMap }

/-- Kinds of session request delivered to the server's onRequest handler,
mirroring the dynamic `instanceof PortForwardRequestMessage` dispatch. -/
inductive RequestMsg where
  | portForward (host : String) (port : Nat)
  | other
deriving DecidableEq, Repr

/-- The request event the session library hands to the onRequest handler: the
request message, the resolved principal (if authentication produced one), and
the `isAuthorized` decision field, initially false. -/
structure SessionRequestEvent where
  request : RequestMsg
  principal : Option Nat
  isAuthorized : Bool
deriving DecidableEq, Repr

/-- The onRequest handler installed by `startSshServer`
(src/server/src/index.ts): `if (e.request instanceof PortForwardRequestMessage)
{ e.isAuthorized = !!e.principal; }` — for a port-forward request the decision
is exactly the truthiness of the principal; other requests are untouched. -/
def onRequest (e : SessionRequestEvent) : SessionRequestEvent :=
  match e.request with
  | RequestMsg.portForward _ _ => { e with isAuthorized := e.principal.isSome }
  | RequestMsg.other => e

/-- Settlement of a promise: fulfilled with a value, or rejected. -/
inductive PromiseResult (m : Type) where
  | fulfilled (a : m)
  | rejected
deriving DecidableEq, Repr

/-- Semantics of `p.then(f)` with only an onFulfilled handler: `f` runs exactly
when `p` fulfils; a rejection passes through; a handler that throws rejects the
resulting promise.  The handler is abstracted by whether it throws; the second
component counts handler invocations. -/
def promiseThen (p : PromiseResult m) (handlerThrows : Bool) : PromiseResult Unit × Nat :=
  match p with
  | PromiseResult.fulfilled _ =>
    (if handlerThrows then PromiseResult.rejected else PromiseResult.fulfilled (), 1)
  | PromiseResult.rejected => (PromiseResult.rejected, 0)

/-- Semantics of `q.catch(g)`: `g` runs exactly when `q` rejects.  The second
component counts handler invocations. -/
def promiseCatch (q : PromiseResult Unit) (handlerThrows : Bool) : PromiseResult Unit × Nat :=
  match q with
  | PromiseResult.fulfilled _ => (PromiseResult.fulfilled (), 0)
  | PromiseResult.rejected =>
    (if handlerThrows then PromiseResult.rejected else PromiseResult.fulfilled (), 1)

/-- Bun path of `spawnProcess` (src/repro-client-ws.ts):
`void sshBunCommand.exited.then(h).catch(h)` where both handlers call
`options.onExit` once.  Counts the resulting onExit invocations, given how the
`exited` promise settles and whether the onExit callback itself throws. -/
def bunOnExitCalls (exited : PromiseResult (Option Int)) (handlerThrows : Bool) : Nat :=
  let r1 := promiseThen exited handlerThrows
  let r2 := promiseCatch r1.1 handlerThrows
  r1.2 + r2.2

/-- Notification emitted by a Node.js child process: an `exit` event with code
and signal, or an `error` event. -/
inductive ProcEvent where
  | exitEvt (code : Option Int) (signal : Option String)
  | errorEvt
deriving DecidableEq, Repr

/-- Predicate selecting exit events. -/
def ProcEvent.isExit (n : ProcEvent) : Bool :=
  match n with
  | ProcEvent.exitEvt _ _ => true
  | ProcEvent.errorEvt => false

/-- Node path of `spawnProcess`: a single listener is registered with
`sshProcess.on("exit", ...)`, so `options.onExit` is invoked once per `exit`
emission and never on `error` emissions. -/
def nodeOnExitCalls (notes : List ProcEvent) : Nat :=
  (notes.filter ProcEvent.isExit).length

/-- The onExit callback passed by `testSSH` to `spawnProcess`: log, close the
owning session fire-and-forget (with a `.catch`, so no synchronous throw),
delete the key from the (shadowed local) sessionMap, then `closeSessions()` on
the module-level map.  A total function: the callback never throws. -/
def testSSHOnExit (localMap : Registry) (globalMap : Registry) : Registry × Registry :=
  (regDelete localMap serverURI, (closeSessions none globalMap).1)

theorem dataEvents_append (l1 l2 : List SinkEvent) :
    dataEvents (l1 ++ l2) = dataEvents l1 ++ dataEvents l2 := by
  simp [dataEvents]

theorem binaryPayloads_cons (e : TransportEvent) (t : List TransportEvent) :
    binaryPayloads (e :: t) = binaryPayloads [e] ++ binaryPayloads t := by
  cases e with
  | message b p => cases b <;> simp [binaryPayloads]
  | closeEvt c r => simp [binaryPayloads]
  | errorEvt er => simp [binaryPayloads]

theorem server_handle_dataEvents (s : AdapterState) (e : TransportEvent) :
    dataEvents (WebSocketServerStream.handleEvent s e).events
      = dataEvents s.events ++ binaryPayloads [e] := by
  cases e with
  | message b p =>
    cases b <;>
      simp [WebSocketServerStream.handleEvent, WebSocketServerStream.onMessage,
        binaryPayloads, dataEvents]
  | closeEvt c r =>
    cases c with
    | none =>
      simp [WebSocketServerStream.handleEvent, WebSocketServerStream.onClose,
        binaryPayloads, dataEvents]
    | some n =>
      by_cases hn : n = 0 <;>
        simp [WebSocketServerStream.handleEvent, WebSocketServerStream.onClose, hn,
          binaryPayloads, dataEvents]
  | errorEvt err =>
    simp [WebSocketServerStream.handleEvent, WebSocketServerStream.onErrorEvt,
      binaryPayloads, dataEvents]

theorem client_handle_dataEvents (s : AdapterState) (e : TransportEvent) :
    dataEvents (ConnectionClientStream.handleEvent s e).events
      = dataEvents s.events ++ binaryPayloads [e] := by
  cases e with
  | message b p =>
    cases b <;>
      simp [ConnectionClientStream.handleEvent, ConnectionClientStream.onMessage,
        binaryPayloads, dataEvents]
  | closeEvt c r =>
    cases c with
    | none =>
      simp [ConnectionClientStream.handleEvent, ConnectionClientStream.onClose,
        binaryPayloads, dataEvents]
    | some n =>
      by_cases hn : n = 0 <;>
        simp [ConnectionClientStream.handleEvent, ConnectionClientStream.onClose, hn,
          binaryPayloads, dataEvents]
  | errorEvt err =>
    simp [ConnectionClientStream.handleEvent, binaryPayloads, dataEvents]

theorem server_run_dataEvents (evts : List TransportEvent) (s : AdapterState) :
    dataEvents (WebSocketServerStream.run s evts).events
      = dataEvents s.events ++ binaryPayloads evts := by
  induction evts generalizing s with
  | nil => simp [WebSocketServerStream.run, binaryPayloads]
  | cons e t ih =>
    show dataEvents (WebSocketServerStream.run (WebSocketServerStream.handleEvent s e) t).events = _
    rw [ih, server_handle_dataEvents, List.append_assoc, ← binaryPayloads_cons]

theorem client_run_dataEvents (evts : List TransportEvent) (s : AdapterState) :
    dataEvents (ConnectionClientStream.run s evts).events
      = dataEvents s.events ++ binaryPayloads evts := by
  induction evts generalizing s with
  | nil => simp [ConnectionClientStream.run, binaryPayloads]
  | cons e t ih =>
    show dataEvents (ConnectionClientStream.run (ConnectionClientStream.handleEvent s e) t).events = _
    rw [ih, client_handle_dataEvents, List.append_assoc, ← binaryPayloads_cons]

/-- C1: for every sequence of events received on the transport, each adapter
invokes its data sink exactly once per binary message, in receipt order, each
delivery with byte content identical to the received message, and a non-binary
message produces no data-sink invocation: the sequence of data-sink deliveries
equals the sequence of binary-message payloads. -/
theorem adapter_forwards_binary_messages_in_order (evts : List TransportEvent) :
    dataEvents (WebSocketServerStream.run initState evts).events = binaryPayloads evts ∧
    dataEvents (ConnectionClientStream.run initState evts).events = binaryPayloads evts := by
  constructor
  · rw [server_run_dataEvents]; simp [initState, dataEvents]
  · rw [client_run_dataEvents]; simp [initState, dataEvents]

/-- C2: a transport close with absent or zero (falsy) code makes both adapters
signal end-of-stream and never an error; a close with a nonzero code makes both
adapters signal an error whose structured numeric code field is exactly that
close code. -/
theorem close_event_eof_or_coded_error (s : AdapterState) (code : Option Nat) (reason : String) :
    ((code = none ∨ code = some 0) →
      WebSocketServerStream.handleEvent s (TransportEvent.closeEvt code reason)
        = { s with events := s.events ++ [SinkEvent.endOfStream] } ∧
      ConnectionClientStream.handleEvent s (TransportEvent.closeEvt code reason)
        = { s with events := s.events ++ [SinkEvent.endOfStream] }) ∧
    (∀ c : Nat, code = some c → c ≠ 0 →
      WebSocketServerStream.handleEvent s (TransportEvent.closeEvt code reason)
        = { s with events := s.events ++ [SinkEvent.error { code := some c, message := reason }] } ∧
      ConnectionClientStream.handleEvent s (TransportEvent.closeEvt code reason)
        = { s with events := s.events ++ [SinkEvent.error { code := some c, message := reason }] }) := by
  constructor
  · intro h
    rcases h with h | h <;> subst h <;>
      exact ⟨by simp [WebSocketServerStream.handleEvent, WebSocketServerStream.onClose],
             by simp [ConnectionClientStream.handleEvent, ConnectionClientStream.onClose]⟩
  · intro c hc hcne
    subst hc
    constructor
    · simp [WebSocketServerStream.handleEvent, WebSocketServerStream.onClose, hcne]
    · simp [ConnectionClientStream.handleEvent, ConnectionClientStream.onClose, hcne]

/-- Witness for C2 at concrete inputs: close code 1006 yields a coded error on
both adapters, and an absent close code yields end-of-stream on both. -/
theorem close_event_eof_or_coded_error_witness :
    (WebSocketServerStream.handleEvent initState (TransportEvent.closeEvt (some 1006) "gone")
        = { initState with
            events := initState.events ++ [SinkEvent.error { code := some 1006, message := "gone" }] } ∧
     ConnectionClientStream.handleEvent initState (TransportEvent.closeEvt (some 1006) "gone")
        = { initState with
            events := initState.events ++ [SinkEvent.error { code := some 1006, message := "gone" }] }) ∧
    (WebSocketServerStream.handleEvent initState (TransportEvent.closeEvt none "bye")
        = { initState with events := initState.events ++ [SinkEvent.endOfStream] } ∧
     ConnectionClientStream.handleEvent initState (TransportEvent.closeEvt none "bye")
        = { initState with events := initState.events ++ [SinkEvent.endOfStream] }) :=
  ⟨(close_event_eof_or_coded_error initState (some 1006) "gone").2 1006 rfl (by decide),
   (close_event_eof_or_coded_error initState none "bye").1 (Or.inl rfl)⟩

/-- C3 counterexample: the claim fails at concrete inputs.  An empty (but
present) byte sequence is not rejected with InvalidArgument: both adapters send
it as one outbound message.  Moreover on the server adapter a write with absent
data on a disposed adapter fails with InvalidArgument, not ObjectDisposedError,
because the argument check precedes the disposed check. -/
theorem write_empty_or_disposed_counterexample :
    WebSocketServerStream.write initState (some [])
      = Except.ok { initState with sent := initState.sent ++ [[]] } ∧
    ConnectionClientStream.write initState (some [])
      = Except.ok { initState with sent := initState.sent ++ [[]] } ∧
    WebSocketServerStream.write { initState with disposed := true } none
      = Except.error (CallError.invalidArgument "Data is required.") ∧
    WebSocketServerStream.write { initState with disposed := true } none
      ≠ Except.error CallError.objectDisposed := by
  refine ⟨rfl, rfl, rfl, ?_⟩
  simp [WebSocketServerStream.write]

/-- C3 amended: on a non-disposed adapter, a write with present bytes (empty
included) sends them as exactly one outbound message and resolves, and a write
with absent bytes fails with InvalidArgument; on a disposed adapter every
client write fails with ObjectDisposedError, a server write with present bytes
fails with ObjectDisposedError, and a server write with absent bytes fails with
InvalidArgument (the server checks the argument before the disposed flag). -/
theorem write_amended (s : AdapterState) (d : Bytes) (hnd : s.disposed = false) :
    WebSocketServerStream.write s (some d) = Except.ok { s with sent := s.sent ++ [d] } ∧
    ConnectionClientStream.write s (some d) = Except.ok { s with sent := s.sent ++ [d] } ∧
    WebSocketServerStream.write s none
      = Except.error (CallError.invalidArgument "Data is required.") ∧
    ConnectionClientStream.write s none
      = Except.error (CallError.invalidArgument "Data is required.") ∧
    (∀ t : AdapterState, t.disposed = true →
      ConnectionClientStream.write t (some d) = Except.error CallError.objectDisposed ∧
      ConnectionClientStream.write t none = Except.error CallError.objectDisposed ∧
      WebSocketServerStream.write t (some d) = Except.error CallError.objectDisposed ∧
      WebSocketServerStream.write t none
        = Except.error (CallError.invalidArgument "Data is required.")) := by
  refine ⟨?_, ?_, rfl, ?_, ?_⟩
  · simp [WebSocketServerStream.write, hnd]
  · simp [ConnectionClientStream.write, hnd]
  · simp [ConnectionClientStream.write, hnd]
  · intro t ht
    refine ⟨?_, ?_, ?_, rfl⟩ <;>
      simp [ConnectionClientStream.write, WebSocketServerStream.write, ht]

/-- Witness for C3's amended theorem at a concrete input: a fresh adapter
accepts a one-byte write. -/
theorem write_amended_witness :
    WebSocketServerStream.write initState (some [7])
      = Except.ok { initState with sent := initState.sent ++ [[7]] } :=
  (write_amended initState [7] rfl).1

/-- C4: on a disposed adapter, close fails with ObjectDisposedError; otherwise
close marks the adapter disposed and fires the closed notification carrying the
optional error and only then the error notification with the given error or the
generic stream-closed error, in exactly that order, on both adapters. -/
theorem close_sets_disposed_fires_closed_then_error (s : AdapterState) (err : Option StreamError) :
    (s.disposed = true →
      WebSocketServerStream.close s err = Except.error CallError.objectDisposed ∧
      ConnectionClientStream.close s err = Except.error CallError.objectDisposed) ∧
    (s.disposed = false →
      ∃ s1 s2 : AdapterState,
        WebSocketServerStream.close s err = Except.ok s1 ∧
        ConnectionClientStream.close s err = Except.ok s2 ∧
        s1.disposed = true ∧ s2.disposed = true ∧
        s1.events = s.events ++ [SinkEvent.closed err, SinkEvent.error (err.getD streamClosedError)] ∧
        s2.events = s.events ++ [SinkEvent.closed err, SinkEvent.error (err.getD streamClosedError)]) := by
  constructor
  · intro h
    constructor <;> simp [WebSocketServerStream.close, ConnectionClientStream.close, h]
  · intro h
    cases err with
    | none =>
      refine ⟨{ s with
                  disposed := true
                  transportCloses := s.transportCloses ++ [TransportClose.close none none]
                  events := s.events ++ [SinkEvent.closed none, SinkEvent.error streamClosedError] },
              { s with
                  disposed := true
                  transportCloses := s.transportCloses ++ [TransportClose.close (some 1000) none]
                  events := s.events ++ [SinkEvent.closed none, SinkEvent.error streamClosedError] },
              ?_, ?_, rfl, rfl, rfl, rfl⟩ <;>
        simp [WebSocketServerStream.close, ConnectionClientStream.close, h]
    | some e =>
      refine ⟨{ s with
                  disposed := true
                  transportCloses := s.transportCloses ++ [TransportClose.drop e.code (some e.message)]
                  events := s.events ++ [SinkEvent.closed (some e), SinkEvent.error e] },
              { s with
                  disposed := true
                  transportCloses := s.transportCloses ++
                    [TransportClose.close (some (e.code.getD 1011)) (some e.message)]
                  events := s.events ++ [SinkEvent.closed (some e), SinkEvent.error e] },
              ?_, ?_, rfl, rfl, rfl, rfl⟩ <;>
        simp [WebSocketServerStream.close, ConnectionClientStream.close, h]

/-- Witness for C4 at a concrete input: closing a fresh client adapter with no
error yields a state whose notifications end with closed-then-error. -/
theorem close_sets_disposed_fires_closed_then_error_witness :
    ∃ s1 s2 : AdapterState,
      WebSocketServerStream.close initState none = Except.ok s1 ∧
      ConnectionClientStream.close initState none = Except.ok s2 ∧
      s1.disposed = true ∧ s2.disposed = true ∧
      s1.events = initState.events ++
        [SinkEvent.closed none, SinkEvent.error (Option.getD none streamClosedError)] ∧
      s2.events = initState.events ++
        [SinkEvent.closed none, SinkEvent.error (Option.getD none streamClosedError)] :=
  (close_sets_disposed_fires_closed_then_error initState none).2 rfl

/-- C9 counterexample: a transport error event on the client adapter, which
registers no error handler, produces no error-sink invocation at all — the
adapter state is unchanged, refuting the claim that every transport error is
surfaced to the error sink. -/
theorem client_error_event_not_surfaced :
    ConnectionClientStream.handleEvent initState
        (TransportEvent.errorEvt { code := some 5, message := "boom" }) = initState ∧
    errorEvents (ConnectionClientStream.handleEvent initState
        (TransportEvent.errorEvt { code := some 5, message := "boom" })).events = [] :=
  ⟨rfl, rfl⟩

/-- C9 amended: the server adapter surfaces every transport error event to its
error sink unmodified in identity (the very same error value); the client
adapter registers no transport error handler, so a transport error event
produces no sink invocation there. -/
theorem error_event_surfacing (s : AdapterState) (err : StreamError) :
    WebSocketServerStream.handleEvent s (TransportEvent.errorEvt err)
      = { s with events := s.events ++ [SinkEvent.error err] } ∧
    ConnectionClientStream.handleEvent s (TransportEvent.errorEvt err) = s :=
  ⟨rfl, rfl⟩

/-- C5: evaluation of the registration flow at the failing input.  With the
module-level registry holding session 1 under the server URI, a testSSH run
registering session 2 closes no prior session at all: the shadowing local map
is fresh and empty, so the preamble finds nothing to close, the new session is
installed only in the local map, and session 1 survives untouched in the
module-level map even though its key was occupied. -/
theorem register_does_not_close_prior :
    regGet [(serverURI, 1)] serverURI = some 1 ∧
    testSSHRegister [(serverURI, 1)] 2
      = { closedByPreamble := [], localMap := [(serverURI, 2)], globalMap := [(serverURI, 1)] } := by
  constructor
  · simp [regGet]
  · rfl

/-- C6: for a port-forward request, the authorization decision set by the
onRequest handler is true exactly when the request carries a resolved
principal, false whenever the principal is absent, and the handler is
side-effect-free on the decision's inputs: it leaves request and principal
unchanged and re-running it yields the identical outcome. -/
theorem authorize_iff_principal (e : SessionRequestEvent) (h : String) (p : Nat)
    (hreq : e.request = RequestMsg.portForward h p) :
    ((onRequest e).isAuthorized = true ↔ e.principal.isSome = true) ∧
    (e.principal = none → (onRequest e).isAuthorized = false) ∧
    onRequest (onRequest e) = onRequest e ∧
    (onRequest e).request = e.request ∧
    (onRequest e).principal = e.principal := by
  refine ⟨?_, ?_, ?_, ?_, ?_⟩
  · simp [onRequest, hreq]
  · intro hp
    simp [onRequest, hreq, hp]
  · simp [onRequest, hreq]
  · simp [onRequest, hreq]
  · simp [onRequest, hreq]

/-- Witness for C6 at concrete inputs: a port-forward request without a
principal is denied, and one with a principal is authorized. -/
theorem authorize_iff_principal_witness :
    (onRequest { request := RequestMsg.portForward "127.0.0.1" 2223, principal := none,
                 isAuthorized := false }).isAuthorized = false ∧
    (onRequest { request := RequestMsg.portForward "127.0.0.1" 2223, principal := some 9,
                 isAuthorized := false }).isAuthorized = true :=
  ⟨(authorize_iff_principal
      { request := RequestMsg.portForward "127.0.0.1" 2223, principal := none,
        isAuthorized := false } "127.0.0.1" 2223 rfl).2.1 rfl,
   (authorize_iff_principal
      { request := RequestMsg.portForward "127.0.0.1" 2223, principal := some 9,
        isAuthorized := false } "127.0.0.1" 2223 rfl).1.mpr rfl⟩

/-- C7 counterexample: on the server adapter, a write with absent data made
after disposal fails with InvalidArgument, not ObjectDisposedError, because the
argument check precedes the disposed check — refuting the claim that every
write after disposal fails with ObjectDisposedError. -/
theorem dispose_claim_counterexample :
    WebSocketServerStream.write { initState with disposed := true } none
      = Except.error (CallError.invalidArgument "Data is required.") ∧
    WebSocketServerStream.write { initState with disposed := true } none
      ≠ Except.error CallError.objectDisposed := by
  refine ⟨rfl, ?_⟩
  simp [WebSocketServerStream.write]

/-- C7 amended: dispose is idempotent (a second call changes nothing) and never
throws (it is a total function); when not already disposed it closes the
transport with no reason and marks the adapter disposed; when already disposed
it leaves the state unchanged.  After disposal, close always fails with
ObjectDisposedError and so does write — except a server-side write with absent
bytes, which fails with InvalidArgument. -/
theorem dispose_idempotent_amended (s : AdapterState) (d : Bytes) (err : Option StreamError) :
    WebSocketServerStream.dispose (WebSocketServerStream.dispose s)
      = WebSocketServerStream.dispose s ∧
    ConnectionClientStream.dispose (ConnectionClientStream.dispose s)
      = ConnectionClientStream.dispose s ∧
    (WebSocketServerStream.dispose s).disposed = true ∧
    (ConnectionClientStream.dispose s).disposed = true ∧
    (s.disposed = false →
      WebSocketServerStream.dispose s
        = { s with
            disposed := true
            transportCloses := s.transportCloses ++ [TransportClose.close none none] } ∧
      ConnectionClientStream.dispose s
        = { s with
            disposed := true
            transportCloses := s.transportCloses ++ [TransportClose.close none none] }) ∧
    (s.disposed = true →
      WebSocketServerStream.dispose s = s ∧
      ConnectionClientStream.dispose s = s ∧
      WebSocketServerStream.close s err = Except.error CallError.objectDisposed ∧
      ConnectionClientStream.close s err = Except.error CallError.objectDisposed ∧
      WebSocketServerStream.write s (some d) = Except.error CallError.objectDisposed ∧
      ConnectionClientStream.write s (some d) = Except.error CallError.objectDisposed ∧
      ConnectionClientStream.write s none = Except.error CallError.objectDisposed ∧
      WebSocketServerStream.write s none
        = Except.error (CallError.invalidArgument "Data is required.")) := by
  obtain ⟨dd, ev, se, tc⟩ := s
  cases dd <;>
    simp [WebSocketServerStream.dispose, ConnectionClientStream.dispose,
      WebSocketServerStream.close, ConnectionClientStream.close,
      WebSocketServerStream.write, ConnectionClientStream.write]

/-- Witness for C7's amended theorem at a concrete input: disposing a fresh
server adapter twice equals disposing it once, and the first dispose closes the
transport with no reason. -/
theorem dispose_idempotent_amended_witness :
    WebSocketServerStream.dispose (WebSocketServerStream.dispose initState)
      = WebSocketServerStream.dispose initState ∧
    WebSocketServerStream.dispose initState
      = { initState with
          disposed := true
          transportCloses := initState.transportCloses ++ [TransportClose.close none none] } :=
  ⟨(dispose_idempotent_amended initState [] none).1,
   ((dispose_idempotent_amended initState [] none).2.2.2.2.1 rfl).1⟩

/-- C8: the exit handler fires exactly once per terminated process.  On the
Bun path the exited promise settles exactly once, and the then-plus-catch
registration with the non-throwing onExit callback of testSSH invokes it
exactly once whichever way the promise settles; on the Node path the single
registered exit listener invokes it once per exit emission, with error
emissions contributing no invocation. -/
theorem on_exit_fires_exactly_once (exited : PromiseResult (Option Int))
    (notes : List ProcEvent) (hone : (notes.filter ProcEvent.isExit).length = 1) :
    bunOnExitCalls exited false = 1 ∧ nodeOnExitCalls notes = 1 := by
  constructor
  · cases exited <;> rfl
  · exact hone

/-- Witness for C8 at concrete inputs: a rejected exited promise still yields
exactly one onExit call, and a Node notification sequence with error events
around a single exit event yields exactly one onExit call. -/
theorem on_exit_fires_exactly_once_witness :
    bunOnExitCalls (PromiseResult.rejected : PromiseResult (Option Int)) false = 1 ∧
    nodeOnExitCalls [ProcEvent.errorEvt, ProcEvent.exitEvt (some 0) none, ProcEvent.errorEvt] = 1 :=
  on_exit_fires_exactly_once PromiseResult.rejected
    [ProcEvent.errorEvt, ProcEvent.exitEvt (some 0) none, ProcEvent.errorEvt] (by decide)

/-- Invariant for C10: the transport has been closed at most once, and not at
all while the adapter is not yet disposed. -/
def closeInv (s : AdapterState) : Prop :=
  s.transportCloses.length ≤ 1 ∧ (s.disposed = false → s.transportCloses.length = 0)

theorem server_step_closeInv (s : AdapterState) (op : LifecycleOp) (h : closeInv s) :
    closeInv (WebSocketServerStream.step s op) := by
  obtain ⟨h1, h2⟩ := h
  obtain ⟨dd, ev, se, tc⟩ := s
  cases dd
  · have h0 : tc = [] := List.length_eq_zero.mp (h2 rfl)
    subst h0
    cases op with
    | closeOp e =>
      cases e <;> simp [WebSocketServerStream.step, WebSocketServerStream.close, closeInv]
    | disposeOp =>
      simp [WebSocketServerStream.step, WebSocketServerStream.dispose, closeInv]
  · cases op with
    | closeOp e =>
      simpa [WebSocketServerStream.step, WebSocketServerStream.close, closeInv] using h1
    | disposeOp =>
      simpa [WebSocketServerStream.step, WebSocketServerStream.dispose, closeInv] using h1

theorem client_step_closeInv (s : AdapterState) (op : LifecycleOp) (h : closeInv s) :
    closeInv (ConnectionClientStream.step s op) := by
  obtain ⟨h1, h2⟩ := h
  obtain ⟨dd, ev, se, tc⟩ := s
  cases dd
  · have h0 : tc = [] := List.length_eq_zero.mp (h2 rfl)
    subst h0
    cases op with
    | closeOp e =>
      cases e <;> simp [ConnectionClientStream.step, ConnectionClientStream.close, closeInv]
    | disposeOp =>
      simp [ConnectionClientStream.step, ConnectionClientStream.dispose, closeInv]
  · cases op with
    | closeOp e =>
      simpa [ConnectionClientStream.step, ConnectionClientStream.close, closeInv] using h1
    | disposeOp =>
      simpa [ConnectionClientStream.step, ConnectionClientStream.dispose, closeInv] using h1

theorem server_run_closeInv (ops : List LifecycleOp) (s : AdapterState) (h : closeInv s) :
    closeInv (List.foldl WebSocketServerStream.step s ops) := by
  induction ops generalizing s with
  | nil => simpa using h
  | cons op t ih => exact ih _ (server_step_closeInv s op h)

theorem client_run_closeInv (ops : List LifecycleOp) (s : AdapterState) (h : closeInv s) :
    closeInv (List.foldl ConnectionClientStream.step s ops) := by
  induction ops generalizing s with
  | nil => simpa using h
  | cons op t ih => exact ih _ (client_step_closeInv s op h)

/-- C10: across any sequence of close and dispose calls on one adapter that
starts in its freshly constructed state, the transport's close (or drop)
operation is invoked at most once; a close call that throws leaves the state
unchanged, and a dispose after a successful close or dispose never closes the
transport again. -/
theorem transport_closed_at_most_once (ops : List LifecycleOp) (s : AdapterState)
    (hd : s.disposed = false) (hc : s.transportCloses = []) :
    (List.foldl WebSocketServerStream.step s ops).transportCloses.length ≤ 1 ∧
    (List.foldl ConnectionClientStream.step s ops).transportCloses.length ≤ 1 := by
  have hinv : closeInv s := ⟨by simp [hc], fun _ => by simp [hc]⟩
  exact ⟨(server_run_closeInv ops s hinv).1, (client_run_closeInv ops s hinv).1⟩

/-- Witness for C10 at a concrete input: a successful close followed by two
disposes closes the transport at most once on both adapters. -/
theorem transport_closed_at_most_once_witness :
    (List.foldl WebSocketServerStream.step initState
        [LifecycleOp.closeOp none, LifecycleOp.disposeOp,
         LifecycleOp.disposeOp]).transportCloses.length ≤ 1 ∧
    (List.foldl ConnectionClientStream.step initState
        [LifecycleOp.closeOp none, LifecycleOp.disposeOp,
         LifecycleOp.disposeOp]).transportCloses.length ≤ 1 :=
  transport_closed_at_most_once
    [LifecycleOp.closeOp none, LifecycleOp.disposeOp, LifecycleOp.disposeOp] initState rfl rfl

end WsSSH
